import Mathlib

/-!
Verification development for the conversational-search knowledge-base bot
(`actions/storage.py` and `actions/actions.py`).

The Python sources are shallowly embedded: Python scalar values that flow
through slots and documents (strings or None) become the inductive `Val`;
Python dicts with string keys become association lists with first-match
lookup; fallible Python code (store calls, KeyError / TypeError paths)
returns `Except Fault`.  External collaborators from the rasa SDK
(mention resolution, the base knowledge-base key attribute and
representation function, the inherited attribute-lookup mode) are
parameters collected in `Externals`; the Elasticsearch client is the
parameter `EsClient`, specified at its interface: `search` returns a list
of hits or a fault, `get` returns an optional hit or a fault (the code's
own `if obj:` check treats a missing document as an optional result).
-/

set_option maxRecDepth 10000

namespace CSBot

/-- Python-level scalar value: either `None` or a string. -/
inductive Val
  | none_
  | str (s : String)
  deriving DecidableEq, Repr

/-- Python `str()` / f-string rendering of a scalar value. -/
def pyStr : Val → String
  | .none_ => "None"
  | .str s => s

/-- Python truthiness of a scalar value. -/
def truthy : Val → Bool
  | .none_ => false
  | .str s => s ≠ ""

/-- A Python dict with string keys, as an association list; lookup returns
the first match (keys are unique at every construction site). -/
abbrev Doc := List (String × Val)

/-- Python `d[k]` / `d.get(k)` as an optional lookup. -/
def dictGet {α : Type} (d : List (String × α)) (k : String) : Option α :=
  (d.find? (fun p => p.1 == k)).map (fun p => p.2)

/-- Python `d[k] = v`: replace the binding if the key is present,
otherwise append it. -/
def dictSet {α : Type} (d : List (String × α)) (k : String) (v : α) :
    List (String × α) :=
  if d.any (fun p => p.1 == k) then
    d.map (fun p => if p.1 == k then (k, v) else p)
  else d ++ [(k, v)]

/-- Dict lookup keyed by a Python value: `None` never equals a string key. -/
def dictGetV {α : Type} (d : List (String × α)) : Val → Option α
  | .none_ => none
  | .str s => dictGet d s

/-- Abstract Elasticsearch query fragments, the shapes built in
`storage.py` (`fuzzy`, `match`, `match_phrase`, `range` keyed by the
comparison-operator role, which may be Python `None`). -/
inductive QueryFrag
  | fuzzy (attrName : String) (value : String)
  | matchQ (attrName : String) (value : String)
  | matchPhrase (attrName : String) (value : String)
  | rangeQ (attrName : String) (value : String) (role : Option String)
  deriving DecidableEq, Repr

/-- `generate_term_query` of storage.py. -/
def generate_term_query (a v : String) : QueryFrag := .fuzzy a v

/-- `generate_match_query` of storage.py. -/
def generate_match_query (a v : String) : QueryFrag := .matchQ a v

/-- `generate_match_phrase_query` of storage.py. -/
def generate_match_phrase_query (a v : String) : QueryFrag := .matchPhrase a v

/-- `generate_range_query` of storage.py: the role string is the key of
the comparison operator inside the range fragment. -/
def generate_range_query (a v : String) (role : Option String) : QueryFrag :=
  .rangeQ a v role

/-- The attribute-strategy hierarchy of storage.py
(`DefaultAttribute`, `TextAttribute`, `RangeAttribute`), as a tagged
variant carrying the bound field name. -/
inductive Strategy
  | defaultAttr (nm : String)
  | textAttr (nm : String)
  | rangeAttr (nm : String)
  deriving DecidableEq, Repr

/-- `get_field`: all three strategies inherit `document.get(self._name)`
from `DefaultAttribute` (absent key yields Python `None`). -/
def Strategy.get_field (a : Strategy) (document : Doc) : Val :=
  match a with
  | .defaultAttr nm | .textAttr nm | .rangeAttr nm =>
      (dictGet document nm).getD .none_

/-- `generate_query` of each strategy.  The range strategy compares the
role with the string literal eq; any other role (including Python `None`)
is passed through into the range fragment. -/
def Strategy.generate_query (a : Strategy) (value : String)
    (role : Option String) : QueryFrag :=
  match a with
  | .defaultAttr nm => generate_match_query nm value
  | .textAttr nm => generate_match_phrase_query nm value
  | .rangeAttr nm =>
      if role = some "eq" then generate_match_query nm value
      else generate_range_query nm value role

/-- `DocumentType` of storage.py: an index name, an ordered attribute
map, and the type-specific `to_string` rendering (which raises KeyError,
modelled as `none`, when a field it interpolates is missing). -/
structure DocumentType where
  index : String
  attributes : List (String × Strategy)
  to_string : Doc → Option String

/-- A raw Elasticsearch hit: the store-assigned `_id` and the `_source`
document body. -/
structure Hit where
  id : String
  source : Doc
  deriving DecidableEq, Repr

/-- A fault terminating the turn: a store-layer failure, or a Python
exception raised by the embedded code itself (KeyError / TypeError /
ValueError paths). -/
inductive Fault
  | storeFault
  | pyError
  deriving DecidableEq, Repr

/-- The body of an Elasticsearch search request as built by
`get_objects`: a size cap and a boolean-AND (`must`) list of fragments. -/
structure EsQuery where
  size : Int
  must : List QueryFrag
  deriving DecidableEq, Repr

/-- The Elasticsearch client, specified at its interface: `search`
returns ranked hits or a fault; `get` returns an optional hit or a fault
(the identifier argument may be Python `None`, as happens in join mode
when the mention does not resolve). -/
structure EsClient where
  search : String → EsQuery → Except Fault (List Hit)
  get : String → Val → Except Fault (Option Hit)

/-- `ElasticsearchKnowledgeBase`: the immutable document-type registry
plus the shared store client. -/
structure KB where
  document_types : List (String × DocumentType)
  es : EsClient

/-- A normalized object: attribute name to extracted value, plus the
reserved `name` and `id` keys. -/
abbrev NormObj := Doc

/-- Sequencing of a list of fallible steps, in order, stopping at the
first fault — the evaluation order of the Python comprehensions. -/
def exMapM {α β : Type} (g : α → Except Fault β) : List α → Except Fault (List β)
  | [] => .ok []
  | a :: l =>
    match g a with
    | .error f => .error f
    | .ok b =>
      match exMapM g l with
      | .error f => .error f
      | .ok bs => .ok (b :: bs)

/-- `to_kb_obj` of storage.py: render the raw source through the type's
`to_string`, extract each declared attribute via its strategy, then set
the reserved `name` and `id` keys.  `none` models the KeyError paths
(unknown type in the registry, or `to_string` touching a missing field). -/
def to_kb_obj (kb : KB) (obj : Hit) (object_type : Val) : Option NormObj :=
  match dictGetV kb.document_types object_type with
  | none => none
  | some document_type =>
    match document_type.to_string obj.source with
    | none => none
    | some pretty =>
      let kb_obj := document_type.attributes.map
        (fun p => (p.1, p.2.get_field obj.source))
      some (dictSet (dictSet kb_obj "name" (.str pretty)) "id" (.str obj.id))

/-- `get_attributes_of_object`: the declared attribute names, empty for
an unknown type. -/
def get_attributes_of_object (kb : KB) (object_type : Val) : List String :=
  match dictGetV kb.document_types object_type with
  | none => []
  | some dt => dt.attributes.map (fun p => p.1)

/-- One attribute filter as assembled by `get_attribute_slots` in
actions.py: attribute name, slot value, optional entity role. -/
structure AttrFilter where
  name : String
  value : String
  role : Option String
  deriving DecidableEq, Repr

/-- `get_objects` of storage.py: unknown type degrades to an empty list;
otherwise one query fragment per filter via the bound strategy (KeyError
if a filter names an undeclared attribute), a boolean-AND search capped
at `limit`, and every hit mapped through `to_kb_obj`. -/
def get_objects (kb : KB) (object_type : Val) (attrs : List AttrFilter)
    (limit : Int) : Except Fault (List NormObj) :=
  match dictGetV kb.document_types object_type with
  | none => .ok []
  | some document_type =>
    match exMapM (fun a =>
        match dictGet document_type.attributes a.name with
        | some strat => Except.ok (strat.generate_query a.value a.role)
        | none => Except.error Fault.pyError) attrs with
    | .error f => .error f
    | .ok queries =>
      match kb.es.search document_type.index { size := limit, must := queries } with
      | .error f => .error f
      | .ok hits =>
        exMapM (fun h =>
          match to_kb_obj kb h object_type with
          | some o => Except.ok o
          | none => Except.error Fault.pyError) hits

/-- `get_object` of storage.py: unknown type yields absent (not a
fault); otherwise a point lookup by identifier, the hit mapped through
`to_kb_obj`, a missing document yielding absent. -/
def get_object (kb : KB) (object_type : Val) (object_identifier : Val) :
    Except Fault (Option NormObj) :=
  match dictGetV kb.document_types object_type with
  | none => .ok none
  | some document_type =>
    match kb.es.get document_type.index object_identifier with
    | .error f => .error f
    | .ok none => .ok none
    | .ok (some h) =>
      match to_kb_obj kb h object_type with
      | some o => .ok (some o)
      | none => .error .pyError

/-- `BookDocumentType.to_string`: the f-string
interpolating `title` and `publication_year` (KeyError, modelled as
`none`, when either key is missing; a `None` value renders as None). -/
def bookToString (d : Doc) : Option String :=
  match dictGet d "title", dictGet d "publication_year" with
  | some t, some y => some (pyStr t ++ " from " ++ pyStr y)
  | _, _ => none

/-- `RatingDocumentType.to_string`: mean rating out of 10 with the vote
count. -/
def ratingToString (d : Doc) : Option String :=
  match dictGet d "mean_rating", dictGet d "total_votes" with
  | some m, some v => some (pyStr m ++ " out of 10 (" ++ pyStr v ++ " votes)")
  | _, _ => none

/-- `BookDocumentType` of actions.py. -/
def BookDocumentType (index : String) : DocumentType where
  index := index
  attributes :=
    [("title", .textAttr "title"),
     ("author", .textAttr "author"),
     ("publication_year", .rangeAttr "publication_year"),
     ("genres", .textAttr "genres"),
     ("summary", .defaultAttr "summary")]
  to_string := bookToString

/-- `MovieDocumentType` of actions.py (its `to_string` is the same
title/year f-string as the book type). -/
def MovieDocumentType (index : String) : DocumentType where
  index := index
  attributes :=
    [("title", .textAttr "title"),
     ("publication_year", .rangeAttr "publication_year"),
     ("genres", .textAttr "genres"),
     ("summary", .defaultAttr "summary"),
     ("actors", .textAttr "actors"),
     ("director", .textAttr "director")]
  to_string := bookToString

/-- `RatingDocumentType` of actions.py. -/
def RatingDocumentType (index : String) : DocumentType where
  index := index
  attributes :=
    [("mean_rating", .defaultAttr "mean_rating"),
     ("total_votes", .defaultAttr "total_votes")]
  to_string := ratingToString

/-- The registry built in `ActionElasticsearchKnowledgeBase.__init__`. -/
def stdDocumentTypes : List (String × DocumentType) :=
  [("book", BookDocumentType "book"),
   ("movie", MovieDocumentType "movie"),
   ("rating", RatingDocumentType "rating")]

/-- The four characters removed by `sanitize` (both braces and both
square brackets). -/
def isBadChar (c : Char) : Bool :=
  c = Char.ofNat 123 || c = Char.ofNat 125 || c = '[' || c = ']'

/-- `sanitize` of actions.py: strip every brace and square bracket. -/
def sanitize (text : String) : String :=
  String.mk (text.data.filter (fun c => !(isBadChar c)))

/-- One entity of the latest user message: its type tag, value, and the
optional role tag (absent when the NER attached no role). -/
structure Entity where
  entity : String
  value : Val
  role : Option String
  deriving DecidableEq, Repr

/-- The conversation state read by the action: the slot dict and the
entity list of the latest message. -/
structure Tracker where
  slots : List (String × Val)
  entities : List Entity
  deriving DecidableEq, Repr

/-- `tracker.get_slot`: Python `None` for an absent slot. -/
def getSlot (t : Tracker) (k : String) : Val :=
  (dictGet t.slots k).getD .none_

/-- Slot name `object_type` (rasa_sdk `SLOT_OBJECT_TYPE`). -/
def SLOT_OBJECT_TYPE : String := "object_type"

/-- Slot name `knowledge_base_last_object_type`. -/
def SLOT_LAST_OBJECT_TYPE : String := "knowledge_base_last_object_type"

/-- Slot name (rasa_sdk `SLOT_ATTRIBUTE`). -/
def SLOT_ATTRIBUTE : String := "attribute"

/-- Slot name `mention`. -/
def SLOT_MENTION : String := "mention"

/-- Slot name `knowledge_base_last_object`. -/
def SLOT_LAST_OBJECT : String := "knowledge_base_last_object"

/-- Slot name `knowledge_base_listed_objects`. -/
def SLOT_LISTED_OBJECTS : String := "knowledge_base_listed_objects"

/-- Slot name `limit` (defined in actions.py). -/
def SLOT_LIMIT : String := "limit"

/-- `get_attribute_slots` of actions.py: for every declared attribute
whose slot holds a non-None value, emit a filter pairing the slot value
with the first role tag among the latest entities that match the
attribute name and value and carry a role. -/
def get_attribute_slots (t : Tracker) (object_attributes : List String) :
    List AttrFilter :=
  object_attributes.filterMap (fun attr =>
    let attr_val :=
      if t.slots.any (fun p => p.1 == attr) then getSlot t attr else .none_
    match attr_val with
    | .none_ => none
    | .str v =>
      let roles := t.entities.filterMap (fun e =>
        if e.entity = attr ∧ e.value = Val.str v then e.role else none)
      some { name := attr, value := v, role := roles.head? })

/-- An utterance handed to the dispatcher: a response template name or a
plain text message. -/
inductive Utter
  | template (nm : String)
  | text (s : String)
  deriving DecidableEq, Repr

/-- A value written into a slot by a `SlotSet` event: a scalar or a list
(the listed-objects slot). -/
inductive SlotContent
  | val (v : Val)
  | vlist (vs : List Val)
  deriving DecidableEq, Repr

/-- The state delta of a turn: the ordered list of `SlotSet` events. -/
abbrev Delta := List (String × SlotContent)

/-- The final value a delta assigns to a slot (the engine applies
`SlotSet` events in order, so the last one wins); `none` when the delta
never touches the slot. -/
def assigns (d : Delta) (k : String) : Option SlotContent :=
  (d.filterMap (fun p => if p.1 = k then some p.2 else none)).getLast?

/-- Modelled from the spec: `reset_attribute_slots` is imported from the
external conversational engine (rasa_sdk.knowledge_base.utils), not part
of this repository's sources; per the spec it resets every attribute
slot of the object type that was consulted, that is, every declared
attribute whose slot currently holds a non-None value. -/
def reset_attribute_slots (t : Tracker) (object_attributes : List String) :
    Delta :=
  object_attributes.filterMap (fun attr =>
    let attr_val :=
      if t.slots.any (fun p => p.1 == attr) then getSlot t attr else .none_
    if attr_val = .none_ then none
    else some (attr, SlotContent.val .none_))

/-- External collaborators of the turn resolver, all inherited from the
rasa SDK and outside this repository: `get_object_name`
(ordinal/mention resolution), `get_key_attribute_of_object`,
`get_representation_function_of_object`, and the inherited
`_query_attribute` mode of `ActionQueryKnowledgeBase`. -/
structure Externals where
  resolveMention : Tracker → Val
  keyAttr : Val → String
  reprFn : Val → NormObj → Val
  queryAttribute : Val → Val → Tracker → Except Fault (List Utter × Delta)

/-- `utter_objects` of actions.py: either the found-header followed by
one numbered line per object (rendered through the representation
function), or the not-found message; active filters are echoed verbatim
in both. -/
def utter_objects (ext : Externals) (object_type : Val)
    (objects : List NormObj) (attrs : List AttrFilter) : List Utter :=
  let attributes_repr :=
    if attrs.isEmpty then ""
    else " with " ++ String.intercalate ", "
      (attrs.map (fun a => a.name ++ ": " ++ a.value))
  if objects.isEmpty then
    [.text ("I could not find any " ++ pyStr object_type ++ "s " ++
      attributes_repr ++ ".")]
  else
    .text ("I found the following " ++ pyStr object_type ++ "s " ++
        attributes_repr ++ ":")
      :: objects.enum.map (fun p =>
        .text (toString (p.1 + 1) ++ ": " ++ pyStr (ext.reprFn object_type p.2)))

/-- `utter_attribute_value` of actions.py: a truthy value is sanitized
and echoed; otherwise the not-found message names the attribute and the
object. -/
def utter_attribute_value (object_name attribute_name attribute_value : Val) :
    Utter :=
  if truthy attribute_value then
    .text (sanitize (pyStr attribute_value) ++ ".")
  else
    .text ("Did not find a valid value for attribute \x27" ++
      pyStr attribute_name ++ "\x27 for object \x27" ++ pyStr object_name ++
      "\x27.")

/-- The limit used by `_query_objects`: a falsy slot leaves the
`get_objects` default of 5; a truthy slot value goes through `int(...)`,
whose ValueError is a fault. -/
def pyLimit (t : Tracker) : Except Fault Int :=
  match getSlot t SLOT_LIMIT with
  | .none_ => .ok 5
  | .str s =>
    if s = "" then .ok 5
    else
      match s.toInt? with
      | some n => .ok n
      | none => .error .pyError

/-- `None if len(objects) > 1 else objects[0][key_attribute]` of
`_query_objects` (IndexError on an empty list and KeyError on a missing
key attribute are faults). -/
def lastObjectOf (key_attribute : String) (objects : List NormObj) :
    Except Fault Val :=
  if objects.length > 1 then .ok .none_
  else
    match objects with
    | [] => .error .pyError
    | o :: _ =>
      match dictGet o key_attribute with
      | some v => .ok v
      | none => .error .pyError

/-- `list(map(lambda e: e[key_attribute], objects))` of
`_query_objects`. -/
def listedOf (key_attribute : String) (objects : List NormObj) :
    Except Fault (List Val) :=
  exMapM (fun o =>
    match dictGet o key_attribute with
    | some v => Except.ok v
    | none => Except.error Fault.pyError) objects

/-- `_query_objects` of actions.py (listing mode): gather the attribute
filters from the slots, query the knowledge base with the current limit,
utter the results, and on a non-empty result emit the full slot delta
(reaffirmed object type, cleared mention/attribute/limit, last object
only for a sole result, the listed keys, and the reset attribute
slots). -/
def query_objects (kb : KB) (ext : Externals) (object_type : Val)
    (t : Tracker) : Except Fault (List Utter × Delta) :=
  let object_attributes := get_attributes_of_object kb object_type
  let attrs := get_attribute_slots t object_attributes
  match pyLimit t with
  | .error f => .error f
  | .ok lim =>
    match get_objects kb object_type attrs lim with
    | .error f => .error f
    | .ok objects =>
      let uts := utter_objects ext object_type objects attrs
      if objects.isEmpty then
        .ok (uts, reset_attribute_slots t object_attributes)
      else
        let key_attribute := ext.keyAttr object_type
        match lastObjectOf key_attribute objects with
        | .error f => .error f
        | .ok last_object =>
          match listedOf key_attribute objects with
          | .error f => .error f
          | .ok listed =>
            .ok (uts,
              [(SLOT_OBJECT_TYPE, SlotContent.val object_type),
               (SLOT_MENTION, SlotContent.val .none_),
               (SLOT_ATTRIBUTE, SlotContent.val .none_),
               (SLOT_LAST_OBJECT, SlotContent.val last_object),
               (SLOT_LAST_OBJECT_TYPE, SlotContent.val object_type),
               (SLOT_LISTED_OBJECTS, SlotContent.vlist listed),
               (SLOT_LIMIT, SlotContent.val .none_)]
              ++ reset_attribute_slots t object_attributes)

/-- `_query_join_objects` of actions.py: resolve the mentioned name,
look it up under the previous type, guard on a falsy name / falsy type /
missing previous object (clarification, clearing only the mention),
then look the same name up under the current type and render the join
response; the current-type result is used unguarded, so a miss there
reaches `to_string(None)`, a TypeError. -/
def query_join_objects (kb : KB) (ext : Externals)
    (object_type last_object_type : Val) (t : Tracker) :
    Except Fault (List Utter × Delta) :=
  let object_name := ext.resolveMention t
  match get_object kb last_object_type object_name with
  | .error f => .error f
  | .ok last_object =>
    if truthy object_name = false ∨ truthy object_type = false ∨
        last_object = none then
      .ok ([.template "utter_ask_rephrase"],
        [(SLOT_MENTION, SlotContent.val .none_)])
    else
      match get_object kb object_type object_name with
      | .error f => .error f
      | .ok object_of_interest =>
        match dictGetV kb.document_types object_type with
        | none => .error .pyError
        | some dt =>
          match object_of_interest with
          | none => .error .pyError
          | some oi =>
            match dt.to_string oi with
            | none => .error .pyError
            | some obj_repr =>
              match dictGetV kb.document_types last_object_type with
              | none => .error .pyError
              | some dtl =>
                match last_object with
                | none => .error .pyError
                | some lo =>
                  match dtl.to_string lo with
                  | none => .error .pyError
                  | some last_obj_repr =>
                    .ok ([.text (obj_repr ++ " is the " ++
                            pyStr object_type ++ " for " ++
                            pyStr last_object_type ++ " " ++
                            last_obj_repr ++ ".")],
                      [(SLOT_OBJECT_TYPE, SlotContent.val last_object_type),
                       (SLOT_MENTION, SlotContent.val .none_),
                       (SLOT_ATTRIBUTE, SlotContent.val .none_),
                       (SLOT_LAST_OBJECT, SlotContent.val object_name),
                       (SLOT_LAST_OBJECT_TYPE, SlotContent.val last_object_type),
                       (SLOT_LIMIT, SlotContent.val .none_)])

/-- The four outcomes of the mode dispatch in `run`. -/
inductive Mode
  | clarify
  | join
  | listing
  | attributeLookup
  deriving DecidableEq, Repr

/-- The mode `run` dispatches to, read off the same slot tests `run`
performs: no truthy object type clarifies; a truthy last object type
together with a changed object type and a non-None mention joins; then
a falsy attribute slot lists, a truthy one looks the attribute up. -/
def selectMode (t : Tracker) : Mode :=
  let object_type := getSlot t SLOT_OBJECT_TYPE
  let last_object_type := getSlot t SLOT_LAST_OBJECT_TYPE
  let attributeSlot := getSlot t SLOT_ATTRIBUTE
  let has_mention := getSlot t SLOT_MENTION ≠ Val.none_
  let new_request := object_type ≠ last_object_type
  if truthy object_type = false then .clarify
  else if truthy last_object_type = true ∧ new_request ∧ has_mention then .join
  else if truthy attributeSlot = false then .listing
  else .attributeLookup

/-- `ActionElasticsearchKnowledgeBase.run`: read the slots, clarify when
no object type is set, join when the last object type is set, the type
changed and a mention is present, otherwise list (no attribute slot) or
look up the attribute (attribute slot set). -/
def run (kb : KB) (ext : Externals) (t : Tracker) :
    Except Fault (List Utter × Delta) :=
  let object_type := getSlot t SLOT_OBJECT_TYPE
  let last_object_type := getSlot t SLOT_LAST_OBJECT_TYPE
  let attributeSlot := getSlot t SLOT_ATTRIBUTE
  let has_mention := getSlot t SLOT_MENTION ≠ Val.none_
  let new_request := object_type ≠ last_object_type
  if truthy object_type = false then
    .ok ([.template "utter_ask_rephrase"], [])
  else if truthy last_object_type = true ∧ new_request ∧ has_mention then
    query_join_objects kb ext object_type last_object_type t
  else if truthy attributeSlot = false then
    query_objects kb ext object_type t
  else
    ext.queryAttribute object_type attributeSlot t

/-!  Concrete fixtures: a default instantiation of the external rasa
collaborators (the SDK defaults: the key attribute is `id`, the
representation function reads the `name` key), small stores, and
trackers exercising the three modes. -/

/-- Default externals, following the rasa SDK defaults: no mention
resolves, the key attribute is `id`, the representation function reads
the reserved `name` key, and the inherited attribute lookup answers
nothing. -/
def extD : Externals where
  resolveMention := fun _ => .none_
  keyAttr := fun _ => "id"
  reprFn := fun _ o => (dictGet o "name").getD .none_
  queryAttribute := fun _ _ _ => .ok ([], [])

/-- Externals whose mention resolution yields the identifier 42. -/
def extMention : Externals :=
  { extD with resolveMention := fun _ => .str "42" }

/-- A movie hit sharing identifier 42 with its rating. -/
def movieHit : Hit where
  id := "42"
  source := [("title", .str "Heat"), ("publication_year", .str "1995")]

/-- The rating hit for identifier 42. -/
def ratingHit : Hit where
  id := "42"
  source := [("mean_rating", .str "8.8"), ("total_votes", .str "1200")]

/-- A book hit with identifier 7. -/
def bookHit : Hit where
  id := "7"
  source := [("title", .str "Dune"), ("publication_year", .str "1965")]

/-- A store holding the movie but not its rating: the join's
current-type lookup misses. -/
def esJoinMiss : EsClient where
  search := fun _ _ => .ok []
  get := fun index _ => if index = "movie" then .ok (some movieHit) else .ok none

/-- A store holding both the movie and its rating. -/
def esJoinHit : EsClient where
  search := fun _ _ => .ok []
  get := fun index _ =>
    if index = "movie" then .ok (some movieHit)
    else if index = "rating" then .ok (some ratingHit)
    else .ok none

/-- A store whose every call fails. -/
def esDown : EsClient where
  search := fun _ _ => .error .storeFault
  get := fun _ _ => .error .storeFault

/-- An empty, healthy store. -/
def esEmpty : EsClient where
  search := fun _ _ => .ok []
  get := fun _ _ => .ok none

/-- A store whose search finds exactly the one book hit. -/
def esOneBook : EsClient where
  search := fun _ _ => .ok [bookHit]
  get := fun _ _ => .ok none

/-- The standard registry over the store missing the rating. -/
def kbJoinMiss : KB := { document_types := stdDocumentTypes, es := esJoinMiss }

/-- The standard registry over the store holding movie and rating. -/
def kbJoinHit : KB := { document_types := stdDocumentTypes, es := esJoinHit }

/-- The standard registry over the failing store. -/
def kbDown : KB := { document_types := stdDocumentTypes, es := esDown }

/-- The standard registry over the empty store. -/
def kbEmpty : KB := { document_types := stdDocumentTypes, es := esEmpty }

/-- The standard registry over the one-book store. -/
def kbOneBook : KB := { document_types := stdDocumentTypes, es := esOneBook }

/-- A tracker in join position: current type rating, last type movie, a
mention present. -/
def tJoin : Tracker where
  slots := [(SLOT_OBJECT_TYPE, .str "rating"),
            (SLOT_LAST_OBJECT_TYPE, .str "movie"),
            (SLOT_MENTION, .str "it")]
  entities := []

/-- A tracker in listing position over books with no filters. -/
def tListing : Tracker where
  slots := [(SLOT_OBJECT_TYPE, .str "book")]
  entities := []

/-- A tracker in listing position over books with the title filter
holding a bracketed value. -/
def tSanitize : Tracker where
  slots := [(SLOT_OBJECT_TYPE, .str "book"),
            ("title", .str "Sci-Fi [2020]")]
  entities := []

/-- A tracker with a range-attribute slot set and no role-tagged entity
matching it. -/
def tNullRole : Tracker where
  slots := [("publication_year", .str "2020")]
  entities := []

/-- The normalized object `to_kb_obj` produces for `movieHit`. -/
def movieObj : NormObj :=
  [("title", Val.str "Heat"), ("publication_year", Val.str "1995"),
   ("genres", .none_), ("summary", .none_), ("actors", .none_),
   ("director", .none_), ("name", .str "Heat from 1995"),
   ("id", .str "42")]

/-- The normalized object `to_kb_obj` produces for `ratingHit`. -/
def ratingObj : NormObj :=
  [("mean_rating", Val.str "8.8"), ("total_votes", Val.str "1200"),
   ("name", .str "8.8 out of 10 (1200 votes)"), ("id", .str "42")]

/-- The slot delta of the successful join turn over `kbJoinHit`. -/
def joinDelta : Delta :=
  [(SLOT_OBJECT_TYPE, SlotContent.val (Val.str "movie")),
   (SLOT_MENTION, SlotContent.val .none_),
   (SLOT_ATTRIBUTE, SlotContent.val .none_),
   (SLOT_LAST_OBJECT, SlotContent.val (Val.str "42")),
   (SLOT_LAST_OBJECT_TYPE, SlotContent.val (Val.str "movie")),
   (SLOT_LIMIT, SlotContent.val .none_)]

/-!  Theorems.  Helper lemmas come first; each claim then gets exactly
one theorem (plus, where needed, a witness instantiating its hypotheses
and, for corrected claims, a closed counterexample). -/

/-- The dispatch of `run` factors through `selectMode`: the four-way
case split of `run` and the mode read off the same slot tests agree. -/
theorem run_dispatch (kb : KB) (ext : Externals) (t : Tracker) :
    run kb ext t =
      match selectMode t with
      | .clarify => .ok ([.template "utter_ask_rephrase"], [])
      | .join => query_join_objects kb ext (getSlot t SLOT_OBJECT_TYPE)
          (getSlot t SLOT_LAST_OBJECT_TYPE) t
      | .listing => query_objects kb ext (getSlot t SLOT_OBJECT_TYPE) t
      | .attributeLookup => ext.queryAttribute (getSlot t SLOT_OBJECT_TYPE)
          (getSlot t SLOT_ATTRIBUTE) t := by
  unfold run selectMode
  by_cases h1 : truthy (getSlot t SLOT_OBJECT_TYPE) = false
  · simp [h1]
  · by_cases h2 : truthy (getSlot t SLOT_LAST_OBJECT_TYPE) = true ∧
        getSlot t SLOT_OBJECT_TYPE ≠ getSlot t SLOT_LAST_OBJECT_TYPE ∧
        getSlot t SLOT_MENTION ≠ Val.none_
    · simp [h1, h2]
    · by_cases h3 : truthy (getSlot t SLOT_ATTRIBUTE) = false
      · simp [h1, h2, h3]
      · simp [h1, h2, h3]

/-- Every filter emitted by `get_attribute_slots` names one of the
declared attributes it was given. -/
theorem get_attribute_slots_name_mem (t : Tracker) (attrs : List String)
    (a : AttrFilter) (ha : a ∈ get_attribute_slots t attrs) :
    a.name ∈ attrs := by
  unfold get_attribute_slots at ha
  rcases List.mem_filterMap.mp ha with ⟨attr, hmem, hf⟩
  rcases hv : (if t.slots.any (fun p => p.1 == attr) then getSlot t attr
      else Val.none_) with _ | v
  · rw [hv] at hf; exact absurd hf (by simp)
  · rw [hv] at hf
    simp only [Option.some_inj] at hf
    have : a.name = attr := by rw [← hf]
    rwa [this]

/-- A key present in an association list looks up to something. -/
theorem dictGet_isSome_of_mem_keys {α : Type} (l : List (String × α))
    (a : String) (h : a ∈ l.map (fun p => p.1)) :
    (dictGet l a).isSome := by
  induction l with
  | nil => simp at h
  | cons p rest ih =>
    by_cases hp : (p.1 == a) = true
    · simp [dictGet, List.find?_cons_of_pos, hp]
    · have hpa : p.1 ≠ a := by simpa [beq_iff_eq] using hp
      have h' : a ∈ rest.map (fun p => p.1) := by
        rcases List.mem_map.mp h with ⟨q, hq, hqa⟩
        rcases List.mem_cons.mp hq with rfl | hq'
        · exact absurd hqa hpa
        · exact List.mem_map.mpr ⟨q, hq', hqa⟩
      have := ih h'
      simpa [dictGet, List.find?_cons_of_neg, hp] using this

/-- `exMapM` succeeds when every step does. -/
theorem exMapM_ok {α β : Type} (g : α → Except Fault β) (l : List α)
    (h : ∀ a ∈ l, ∃ b, g a = .ok b) : ∃ bs, exMapM g l = .ok bs := by
  induction l with
  | nil => exact ⟨[], rfl⟩
  | cons a rest ih =>
    rcases h a (List.mem_cons_self a rest) with ⟨b, hb⟩
    rcases ih (fun x hx => h x (List.mem_cons_of_mem a hx)) with ⟨bs, hbs⟩
    exact ⟨b :: bs, by simp [exMapM, hb, hbs]⟩

/-- C4: for every value and every role, the range strategy yields the
plain-match fragment exactly when the role is eq, and otherwise the
range fragment whose comparison-operator key is exactly that role. -/
theorem C4_range_strategy (f v : String) (role : Option String) :
    (role = some "eq" →
      Strategy.generate_query (.rangeAttr f) v role = QueryFrag.matchQ f v) ∧
    (role ≠ some "eq" →
      Strategy.generate_query (.rangeAttr f) v role = QueryFrag.rangeQ f v role) := by
  constructor
  · intro h; simp [Strategy.generate_query, generate_match_query, h]
  · intro h; simp [Strategy.generate_query, generate_range_query, h]

/-- C4 witness: the eq role gives the plain match, the gt role gives the
range fragment keyed gt. -/
theorem C4_range_strategy_witness :
    Strategy.generate_query (.rangeAttr "publication_year") "2000" (some "eq") =
      QueryFrag.matchQ "publication_year" "2000" ∧
    Strategy.generate_query (.rangeAttr "publication_year") "2000" (some "gt") =
      QueryFrag.rangeQ "publication_year" "2000" (some "gt") :=
  ⟨(C4_range_strategy "publication_year" "2000" (some "eq")).1 rfl,
   (C4_range_strategy "publication_year" "2000" (some "gt")).2 (by decide)⟩

/-- A declared attribute whose slot is set but with no matching
role-carrying entity is extracted with a null role. -/
theorem mem_get_attribute_slots_null_role (t : Tracker) (attrs : List String)
    (attr v : String) (hmem : attr ∈ attrs)
    (hslot : dictGet t.slots attr = some (Val.str v))
    (hrole : ∀ e ∈ t.entities, e.entity = attr → e.value = Val.str v →
      e.role = none) :
    ({ name := attr, value := v, role := none } : AttrFilter) ∈
      get_attribute_slots t attrs := by
  unfold get_attribute_slots
  apply List.mem_filterMap.mpr
  refine ⟨attr, hmem, ?_⟩
  obtain ⟨p, hfind⟩ : ∃ p, t.slots.find? (fun q => q.1 == attr) = some p := by
    cases hf : t.slots.find? (fun q => q.1 == attr) with
    | none => rw [dictGet, hf] at hslot; exact absurd hslot (by simp)
    | some p => exact ⟨p, rfl⟩
  have hpred := List.find?_some hfind
  have hany : t.slots.any (fun q => q.1 == attr) = true :=
    List.any_eq_true.mpr ⟨p, List.mem_of_find?_eq_some hfind, hpred⟩
  have hget : getSlot t attr = Val.str v := by simp [getSlot, hslot]
  have hroles : t.entities.filterMap (fun e =>
      if e.entity = attr ∧ e.value = Val.str v then e.role else none) = [] := by
    apply List.filterMap_eq_nil_iff.mpr
    intro e he
    by_cases hc : e.entity = attr ∧ e.value = Val.str v
    · simp [hc, hrole e he hc.1 hc.2]
    · simp [hc]
  simp [hany, hget, hroles]

/-- C10: a filter on a range-declared attribute whose slot is set while
the latest utterance carries no matching role tag is extracted with a
null role, and the range strategy turns the null role into a range
fragment keyed by the null role — never a plain-match fragment. -/
theorem C10_null_role_range (t : Tracker) (attrs : List String)
    (attr f v : String) (hmem : attr ∈ attrs)
    (hslot : dictGet t.slots attr = some (Val.str v))
    (hrole : ∀ e ∈ t.entities, e.entity = attr → e.value = Val.str v →
      e.role = none) :
    ({ name := attr, value := v, role := none } : AttrFilter) ∈
      get_attribute_slots t attrs ∧
    Strategy.generate_query (.rangeAttr f) v none = QueryFrag.rangeQ f v none ∧
    ∀ g w, Strategy.generate_query (.rangeAttr f) v none ≠ QueryFrag.matchQ g w := by
  refine ⟨mem_get_attribute_slots_null_role t attrs attr v hmem hslot hrole, ?_, ?_⟩
  · simp [Strategy.generate_query, generate_range_query]
  · intro g w; simp [Strategy.generate_query, generate_range_query]

/-- C10 witness: the publication-year slot with no entities extracts a
null-role filter and generates a null-keyed range fragment. -/
theorem C10_null_role_range_witness :
    ({ name := "publication_year", value := "2020", role := none } : AttrFilter) ∈
      get_attribute_slots tNullRole ["publication_year"] ∧
    Strategy.generate_query (.rangeAttr "publication_year") "2020" none =
      QueryFrag.rangeQ "publication_year" "2020" none ∧
    ∀ g w, Strategy.generate_query (.rangeAttr "publication_year") "2020" none ≠
      QueryFrag.matchQ g w :=
  C10_null_role_range tNullRole ["publication_year"] "publication_year"
    "publication_year" "2020" (by decide) (by decide)
    (fun e he => absurd he (by simp [tNullRole]))

/-- C7: `get_object` yields absent, not a fault, for an unknown type and
for a store miss, and yields the normalized object on a hit. -/
theorem C7_get_object (kb : KB) (object_type ident : Val) :
    (dictGetV kb.document_types object_type = none →
      get_object kb object_type ident = .ok none) ∧
    (∀ dt, dictGetV kb.document_types object_type = some dt →
      kb.es.get dt.index ident = .ok none →
      get_object kb object_type ident = .ok none) ∧
    (∀ dt h o, dictGetV kb.document_types object_type = some dt →
      kb.es.get dt.index ident = .ok (some h) →
      to_kb_obj kb h object_type = some o →
      get_object kb object_type ident = .ok (some o)) := by
  refine ⟨?_, ?_, ?_⟩
  · intro h; simp [get_object, h]
  · intro dt hdt hget; simp [get_object, hdt, hget]
  · intro dt h o hdt hget hobj; simp [get_object, hdt, hget, hobj]

/-- C7 witness: unknown type, store miss, and hit, over the
movie-and-rating store. -/
theorem C7_get_object_witness :
    get_object kbJoinHit (.str "car") (.str "1") = .ok none ∧
    get_object kbJoinHit (.str "book") (.str "7") = .ok none ∧
    get_object kbJoinHit (.str "movie") (.str "42") = .ok (some movieObj) :=
  ⟨(C7_get_object kbJoinHit (.str "car") (.str "1")).1 rfl,
   (C7_get_object kbJoinHit (.str "book") (.str "7")).2.1
     (BookDocumentType "book") rfl rfl,
   (C7_get_object kbJoinHit (.str "movie") (.str "42")).2.2
     (MovieDocumentType "movie") movieHit movieObj rfl rfl rfl⟩

/-- C1: join mode is selected exactly when the object type is set, the
last object type is set, the current object type differs from it, and
the mention flag is non-None; otherwise, with the object type set, the
turn falls through to listing mode (falsy attribute slot) or attribute
mode (truthy attribute slot); and `run` executes the selected mode.
Here set means truthy for the type and attribute slots and non-None for
the mention flag, exactly as `run` tests them. -/
theorem C1_mode_selection (t : Tracker) :
    (selectMode t = Mode.join ↔
      (truthy (getSlot t SLOT_OBJECT_TYPE) = true ∧
       truthy (getSlot t SLOT_LAST_OBJECT_TYPE) = true ∧
       getSlot t SLOT_OBJECT_TYPE ≠ getSlot t SLOT_LAST_OBJECT_TYPE ∧
       getSlot t SLOT_MENTION ≠ Val.none_)) ∧
    (truthy (getSlot t SLOT_OBJECT_TYPE) = true → selectMode t ≠ Mode.join →
      selectMode t = (if truthy (getSlot t SLOT_ATTRIBUTE) = false
        then Mode.listing else Mode.attributeLookup)) ∧
    (∀ kb ext, run kb ext t =
      match selectMode t with
      | .clarify => .ok ([.template "utter_ask_rephrase"], [])
      | .join => query_join_objects kb ext (getSlot t SLOT_OBJECT_TYPE)
          (getSlot t SLOT_LAST_OBJECT_TYPE) t
      | .listing => query_objects kb ext (getSlot t SLOT_OBJECT_TYPE) t
      | .attributeLookup => ext.queryAttribute (getSlot t SLOT_OBJECT_TYPE)
          (getSlot t SLOT_ATTRIBUTE) t) := by
  refine ⟨?_, ?_, fun kb ext => run_dispatch kb ext t⟩
  · unfold selectMode
    by_cases h1 : truthy (getSlot t SLOT_OBJECT_TYPE) = false
    · simp [h1]
    · have h1' : truthy (getSlot t SLOT_OBJECT_TYPE) = true := by
        cases hx : truthy (getSlot t SLOT_OBJECT_TYPE) <;> simp_all
      by_cases h2 : truthy (getSlot t SLOT_LAST_OBJECT_TYPE) = true ∧
          getSlot t SLOT_OBJECT_TYPE ≠ getSlot t SLOT_LAST_OBJECT_TYPE ∧
          getSlot t SLOT_MENTION ≠ Val.none_
      · simp [h1, h1', h2]
      · by_cases h3 : truthy (getSlot t SLOT_ATTRIBUTE) = false <;>
          simp [h1, h1', h2, h3]
  · intro h1' hne
    unfold selectMode at hne ⊢
    have h1 : ¬ truthy (getSlot t SLOT_OBJECT_TYPE) = false := by simp [h1']
    by_cases h2 : truthy (getSlot t SLOT_LAST_OBJECT_TYPE) = true ∧
        getSlot t SLOT_OBJECT_TYPE ≠ getSlot t SLOT_LAST_OBJECT_TYPE ∧
        getSlot t SLOT_MENTION ≠ Val.none_
    · simp [h1, h2] at hne
    · by_cases h3 : truthy (getSlot t SLOT_ATTRIBUTE) = false <;>
        simp [h1, h2, h3]

/-- C1 witness: the join tracker selects join mode, the listing tracker
selects listing mode, and `run` on the listing tracker executes
`_query_objects`. -/
theorem C1_mode_selection_witness :
    selectMode tJoin = Mode.join ∧
    selectMode tListing = Mode.listing ∧
    run kbDown extD tListing =
      query_objects kbDown extD (getSlot tListing SLOT_OBJECT_TYPE) tListing :=
  ⟨(C1_mode_selection tJoin).1.mpr ⟨rfl, rfl, by decide, by decide⟩,
   rfl,
   (C1_mode_selection tListing).2.2 kbDown extD⟩

/-- C2 counterexample: over a store holding the movie but no rating for
the same identifier, the join turn does not utter the clarification and
clear the mention — it faults (the unguarded current-type miss reaches
the TypeError of `to_string(None)`). -/
theorem C2_current_miss_counterexample :
    run kbJoinMiss extMention tJoin = .error .pyError := rfl

/-- C2 (amended): in join mode, when the store call for the previous
type returns at all, a falsy resolved name or a missed previous-type
lookup yields the generic clarification with a delta clearing only the
mention flag; a current-type miss is not guarded and faults the turn
instead (see the counterexample). -/
theorem C2_join_guard (kb : KB) (ext : Externals)
    (object_type last_object_type : Val) (t : Tracker) (r : Option NormObj)
    (hresp : get_object kb last_object_type (ext.resolveMention t) = .ok r)
    (hbad : truthy (ext.resolveMention t) = false ∨ r = none) :
    query_join_objects kb ext object_type last_object_type t =
      .ok ([.template "utter_ask_rephrase"],
        [(SLOT_MENTION, SlotContent.val .none_)]) := by
  simp only [query_join_objects]
  rw [hresp]
  have hg : truthy (ext.resolveMention t) = false ∨
      truthy object_type = false ∨ r = none := by
    rcases hbad with h | h
    · exact Or.inl h
    · exact Or.inr (Or.inr h)
  simp [hg]

/-- C2 witness: an unresolvable mention over the empty store is answered
with the clarification and a mention-only delta. -/
theorem C2_join_guard_witness :
    get_object kbEmpty (.str "movie") (extD.resolveMention tJoin) = .ok none ∧
    query_join_objects kbEmpty extD (.str "rating") (.str "movie") tJoin =
      .ok ([.template "utter_ask_rephrase"],
        [(SLOT_MENTION, SlotContent.val .none_)]) :=
  ⟨rfl,
   C2_join_guard kbEmpty extD (.str "rating") (.str "movie") tJoin none rfl
     (Or.inr rfl)⟩

/-- C3 counterexample: the successful join turn (current type rating,
previous type movie) assigns the previous type, movie, to the
last-object-type slot — not the old current type, rating, as a swap of
the two roles would require. -/
theorem C3_swap_counterexample :
    run kbJoinHit extMention tJoin =
      .ok ([.text
        "8.8 out of 10 (1200 votes) is the rating for movie Heat from 1995."],
        joinDelta) ∧
    assigns joinDelta SLOT_LAST_OBJECT_TYPE =
      some (SlotContent.val (getSlot tJoin SLOT_LAST_OBJECT_TYPE)) ∧
    assigns joinDelta SLOT_LAST_OBJECT_TYPE ≠
      some (SlotContent.val (getSlot tJoin SLOT_OBJECT_TYPE)) := by
  refine ⟨rfl, rfl, ?_⟩
  intro h
  simp [assigns, joinDelta, SLOT_LAST_OBJECT_TYPE, SLOT_OBJECT_TYPE,
    SLOT_MENTION, SLOT_ATTRIBUTE, SLOT_LAST_OBJECT, SLOT_LIMIT, getSlot,
    dictGet, tJoin] at h

/-- C3 (amended): on a successful join turn the delta makes the previous
type the current focus and also sets the last-object-type slot to the
previous type (both type slots end up holding the previous type — the
roles are not swapped), clears the mention, attribute and limit slots,
and sets last-object to the resolved name. -/
theorem C3_join_success_delta (kb : KB) (ext : Externals)
    (object_type last_object_type : Val) (t : Tracker)
    (lo oi : NormObj) (dt dtl : DocumentType) (r1 r2 : String)
    (hname : truthy (ext.resolveMention t) = true)
    (hot : truthy object_type = true)
    (hlast : get_object kb last_object_type (ext.resolveMention t) = .ok (some lo))
    (hoi : get_object kb object_type (ext.resolveMention t) = .ok (some oi))
    (hdt : dictGetV kb.document_types object_type = some dt)
    (hdtl : dictGetV kb.document_types last_object_type = some dtl)
    (hr1 : dt.to_string oi = some r1)
    (hr2 : dtl.to_string lo = some r2) :
    query_join_objects kb ext object_type last_object_type t =
      .ok ([.text (r1 ++ " is the " ++ pyStr object_type ++ " for " ++
              pyStr last_object_type ++ " " ++ r2 ++ ".")],
        [(SLOT_OBJECT_TYPE, SlotContent.val last_object_type),
         (SLOT_MENTION, SlotContent.val .none_),
         (SLOT_ATTRIBUTE, SlotContent.val .none_),
         (SLOT_LAST_OBJECT, SlotContent.val (ext.resolveMention t)),
         (SLOT_LAST_OBJECT_TYPE, SlotContent.val last_object_type),
         (SLOT_LIMIT, SlotContent.val .none_)]) := by
  have hg : ¬(truthy (ext.resolveMention t) = false ∨
      truthy object_type = false ∨ (some lo : Option NormObj) = none) := by
    push_neg
    exact ⟨by simp [hname], by simp [hot], by simp⟩
  simp only [query_join_objects, hlast]
  rw [if_neg hg]
  simp only [hoi, hdt, hdtl, hr1, hr2]

/-- C3 witness: the concrete successful rating-for-movie join. -/
theorem C3_join_success_delta_witness :
    query_join_objects kbJoinHit extMention (.str "rating") (.str "movie")
      tJoin =
      .ok ([.text
        "8.8 out of 10 (1200 votes) is the rating for movie Heat from 1995."],
        joinDelta) :=
  C3_join_success_delta kbJoinHit extMention (.str "rating") (.str "movie")
    tJoin movieObj ratingObj (RatingDocumentType "rating")
    (MovieDocumentType "movie") "8.8 out of 10 (1200 votes)" "Heat from 1995"
    rfl rfl rfl rfl rfl rfl rfl rfl

/-- C8 counterexample: a listing turn whose title filter holds
Sci-Fi [2020] dispatches the not-found message with the brackets intact,
so not every rendered string is sanitized. -/
theorem C8_unsanitized_counterexample :
    run kbEmpty extD tSanitize =
      .ok ([.text "I could not find any books  with title: Sci-Fi [2020]."],
        [("title", SlotContent.val .none_)]) ∧
    '[' ∈ "I could not find any books  with title: Sci-Fi [2020].".data :=
  ⟨rfl, by decide⟩

/-- C8 (amended): `sanitize` strips every brace and square bracket —
in particular Sci-Fi [2020] becomes Sci-Fi 2020 — but it is applied only
to the attribute-answer value; the listing and join renders are
dispatched unsanitized (see the counterexample). -/
theorem C8_sanitize_scope (s : String) (object_name attribute_name av : Val) :
    (∀ c ∈ (sanitize s).data, isBadChar c = false) ∧
    sanitize "Sci-Fi [2020]" = "Sci-Fi 2020" ∧
    (truthy av = true →
      utter_attribute_value object_name attribute_name av =
        .text (sanitize (pyStr av) ++ ".")) := by
  refine ⟨?_, by decide, ?_⟩
  · intro c hc
    simp only [sanitize] at hc
    have := (List.mem_filter.mp hc).2
    simpa using this
  · intro h
    simp [utter_attribute_value, h]

/-- C8 witness: a truthy attribute value containing brackets is echoed
through `sanitize`. -/
theorem C8_sanitize_scope_witness :
    utter_attribute_value (Val.str "Dune from 1965") (Val.str "summary")
      (Val.str "Sci-Fi [2020]") = .text (sanitize "Sci-Fi [2020]" ++ ".") :=
  (C8_sanitize_scope "" (Val.str "Dune from 1965") (Val.str "summary")
    (Val.str "Sci-Fi [2020]")).2.2 rfl

/-- Lookup steps through a cons cell. -/
theorem dictGet_cons {α : Type} (q : String × α) (l : List (String × α))
    (k : String) :
    dictGet (q :: l) k = if (q.1 == k) = true then some q.2 else dictGet l k := by
  unfold dictGet
  cases hq : (q.1 == k) <;> simp [List.find?_cons, hq]

/-- Rebinding an existing key makes it look up to the new value. -/
theorem find?_setMap_self {α : Type} (d : List (String × α)) (k : String)
    (v : α) (h : d.any (fun p => p.1 == k) = true) :
    dictGet (d.map (fun p => if p.1 == k then (k, v) else p)) k = some v := by
  induction d with
  | nil => simp at h
  | cons p rest ih =>
    simp only [List.map_cons]
    by_cases hp : (p.1 == k) = true
    · rw [if_pos hp, dictGet_cons]
      simp
    · have hp' : (p.1 == k) = false := by simpa using hp
      have hr : rest.any (fun p => p.1 == k) = true := by
        simp only [List.any_cons, hp', Bool.false_or] at h
        exact h
      rw [if_neg hp, dictGet_cons, if_neg (by simp [hp'])]
      exact ih hr

/-- Rebinding one key leaves every other lookup unchanged. -/
theorem find?_setMap_ne {α : Type} (d : List (String × α)) (k k' : String)
    (v : α) (hne : k' ≠ k) :
    dictGet (d.map (fun p => if p.1 == k then (k, v) else p)) k' =
      dictGet d k' := by
  induction d with
  | nil => rfl
  | cons p rest ih =>
    simp only [List.map_cons]
    by_cases hp : (p.1 == k) = true
    · have hp1 : p.1 = k := by simpa using hp
      have hk : ¬(k == k') = true := by
        simp only [beq_iff_eq]
        exact fun hh => hne hh.symm
      rw [if_pos hp, dictGet_cons, dictGet_cons]
      simp only [hp1]
      rw [if_neg (by simpa using hk), if_neg (by simpa using hk)]
      exact ih
    · rw [if_neg hp, dictGet_cons, dictGet_cons]
      by_cases hq : (p.1 == k') = true
      · rw [if_pos hq, if_pos hq]
      · rw [if_neg hq, if_neg hq]
        exact ih

/-- `dictSet` then lookup of the same key yields the new value. -/
theorem dictGet_dictSet_self {α : Type} (d : List (String × α)) (k : String)
    (v : α) : dictGet (dictSet d k v) k = some v := by
  unfold dictSet
  by_cases h : d.any (fun p => p.1 == k) = true
  · rw [if_pos h]
    exact find?_setMap_self d k v h
  · rw [if_neg h]
    unfold dictGet
    rw [List.find?_append]
    have hd : List.find? (fun p => p.1 == k) d = none := by
      rw [List.find?_eq_none]
      intro x hx hpx
      exact h (List.any_eq_true.mpr ⟨x, hx, hpx⟩)
    rw [hd]
    simp

/-- `dictSet` then lookup of a different key is unchanged. -/
theorem dictGet_dictSet_ne {α : Type} (d : List (String × α)) (k k' : String)
    (v : α) (hne : k' ≠ k) :
    dictGet (dictSet d k v) k' = dictGet d k' := by
  unfold dictSet
  by_cases h : d.any (fun p => p.1 == k) = true
  · rw [if_pos h]
    exact find?_setMap_ne d k k' v hne
  · rw [if_neg h]
    unfold dictGet
    rw [List.find?_append]
    have hone : List.find? (fun p => p.1 == k') [(k, v)] = none := by
      rw [List.find?_eq_none]
      intro x hx hpx
      rcases List.mem_singleton.mp hx with rfl
      exact hne (beq_iff_eq.mp hpx).symm
    rw [hone]
    cases hd : List.find? (fun p => p.1 == k') d <;> simp

/-- C9: a normalized object produced for a known type always carries the
reserved `name` and `id` keys and one entry per declared attribute (in
particular per declared attribute present in the raw document). -/
theorem C9_normalized_object (kb : KB) (h : Hit) (object_type : Val)
    (dt : DocumentType) (obj : NormObj)
    (hdt : dictGetV kb.document_types object_type = some dt)
    (hobj : to_kb_obj kb h object_type = some obj) :
    (dictGet obj "name").isSome ∧ (dictGet obj "id").isSome ∧
    ∀ a ∈ dt.attributes.map (fun p => p.1), (dictGet obj a).isSome := by
  unfold to_kb_obj at hobj
  simp only [hdt] at hobj
  cases hts : dt.to_string h.source with
  | none => simp only [hts] at hobj; exact absurd hobj (by simp)
  | some pretty =>
    simp only [hts, Option.some_inj] at hobj
    have hobj' : obj = dictSet
        (dictSet (dt.attributes.map (fun p => (p.1, p.2.get_field h.source)))
          "name" (.str pretty)) "id" (.str h.id) := hobj.symm
    subst hobj'
    refine ⟨?_, ?_, ?_⟩
    · rw [dictGet_dictSet_ne _ _ _ _ (by decide), dictGet_dictSet_self]
      simp
    · rw [dictGet_dictSet_self]
      simp
    · intro a ha
      by_cases hid : a = "id"
      · subst hid
        rw [dictGet_dictSet_self]
        simp
      · rw [dictGet_dictSet_ne _ _ _ _ hid]
        by_cases hnm : a = "name"
        · subst hnm
          rw [dictGet_dictSet_self]
          simp
        · rw [dictGet_dictSet_ne _ _ _ _ hnm]
          apply dictGet_isSome_of_mem_keys
          have : (dt.attributes.map (fun p => (p.1, p.2.get_field h.source))).map
              (fun p => p.1) = dt.attributes.map (fun p => p.1) := by
            simp [List.map_map]
          rw [this]
          exact ha

/-- C9 witness: the normalized movie object carries `name`, `id` and
every declared movie attribute. -/
theorem C9_normalized_object_witness :
    (dictGet movieObj "name").isSome ∧ (dictGet movieObj "id").isSome ∧
    ∀ a ∈ (MovieDocumentType "movie").attributes.map (fun p => p.1),
      (dictGet movieObj a).isSome :=
  C9_normalized_object kbJoinHit movieHit (.str "movie")
    (MovieDocumentType "movie") movieObj rfl rfl

/-- The last assignment in a concatenated delta is the second part's,
falling back to the first part's. -/
theorem assigns_append (d1 d2 : Delta) (k : String) :
    assigns (d1 ++ d2) k = (assigns d2 k).or (assigns d1 k) := by
  unfold assigns
  rw [List.filterMap_append, List.getLast?_append]

/-- The reset of the consulted attribute slots never touches a slot
outside the attribute list. -/
theorem assigns_reset_not_mem (t : Tracker) (attrs : List String) (k : String)
    (h : k ∉ attrs) :
    assigns (reset_attribute_slots t attrs) k = none := by
  unfold assigns
  have hnil : List.filterMap (fun p => if p.1 = k then some p.2 else none)
      (reset_attribute_slots t attrs) = [] := by
    apply List.filterMap_eq_nil_iff.mpr
    intro p hp
    unfold reset_attribute_slots at hp
    rcases List.mem_filterMap.mp hp with ⟨attr, hmem, hf⟩
    simp only at hf
    by_cases hc : (if t.slots.any (fun q => q.1 == attr) then getSlot t attr
        else Val.none_) = Val.none_
    · rw [if_pos hc] at hf
      exact absurd hf (by simp)
    · rw [if_neg hc] at hf
      injection hf with hf'
      subst hf'
      rw [if_neg]
      intro hk
      exact h (hk ▸ hmem)
  rw [hnil]
  rfl

/-- C5: in listing mode, exactly one result sets the last-object slot to
that result's key-attribute value; zero results leave the slot untouched
by the delta, and more than one result clears it to None — in neither
case does it receive a concrete value. -/
theorem C5_listing_last_object (kb : KB) (ext : Externals) (object_type : Val)
    (t : Tracker) (lim : Int) (objects : List NormObj)
    (uts : List Utter) (delta : Delta)
    (hlim : pyLimit t = .ok lim)
    (hobjs : get_objects kb object_type
      (get_attribute_slots t (get_attributes_of_object kb object_type)) lim =
      .ok objects)
    (hok : query_objects kb ext object_type t = .ok (uts, delta))
    (hnl : SLOT_LAST_OBJECT ∉ get_attributes_of_object kb object_type) :
    (objects.length = 1 → ∃ o v, objects = [o] ∧
      dictGet o (ext.keyAttr object_type) = some v ∧
      assigns delta SLOT_LAST_OBJECT = some (SlotContent.val v)) ∧
    (objects.length = 0 → assigns delta SLOT_LAST_OBJECT = none) ∧
    (1 < objects.length →
      assigns delta SLOT_LAST_OBJECT = some (SlotContent.val .none_)) := by
  simp only [query_objects, hlim, hobjs] at hok
  by_cases hemp : objects.isEmpty = true
  · have hnil : objects = [] := List.isEmpty_iff.mp hemp
    rw [if_pos hemp] at hok
    injection hok with hok'
    have hde : delta = reset_attribute_slots t
        (get_attributes_of_object kb object_type) :=
      (congrArg Prod.snd hok').symm
    refine ⟨?_, ?_, ?_⟩
    · intro h1
      rw [hnil] at h1
      exact absurd h1 (by simp)
    · intro _
      rw [hde]
      exact assigns_reset_not_mem _ _ _ hnl
    · intro h1
      rw [hnil] at h1
      exact absurd h1 (by simp)
  · rw [if_neg hemp] at hok
    cases hlo : lastObjectOf (ext.keyAttr object_type) objects with
    | error f => rw [hlo] at hok; exact absurd hok (by simp)
    | ok lo =>
      rw [hlo] at hok
      cases hli : listedOf (ext.keyAttr object_type) objects with
      | error f => rw [hli] at hok; exact absurd hok (by simp)
      | ok listed =>
        rw [hli] at hok
        injection hok with hok'
        have hde : delta =
            [(SLOT_OBJECT_TYPE, SlotContent.val object_type),
             (SLOT_MENTION, SlotContent.val .none_),
             (SLOT_ATTRIBUTE, SlotContent.val .none_),
             (SLOT_LAST_OBJECT, SlotContent.val lo),
             (SLOT_LAST_OBJECT_TYPE, SlotContent.val object_type),
             (SLOT_LISTED_OBJECTS, SlotContent.vlist listed),
             (SLOT_LIMIT, SlotContent.val .none_)]
            ++ reset_attribute_slots t
                (get_attributes_of_object kb object_type) :=
          (congrArg Prod.snd hok').symm
        have hassign : assigns delta SLOT_LAST_OBJECT =
            some (SlotContent.val lo) := by
          rw [hde, assigns_append,
            assigns_reset_not_mem _ _ _ hnl, Option.none_or]
          rfl
        refine ⟨?_, ?_, ?_⟩
        · intro h1
          rcases List.length_eq_one.mp h1 with ⟨o, ho⟩
          subst ho
          cases hdg : dictGet o (ext.keyAttr object_type) with
          | none => simp [lastObjectOf, hdg] at hlo
          | some v =>
            have hv : lo = v := by
              simp [lastObjectOf, hdg] at hlo
              exact hlo.symm
            exact ⟨o, v, rfl, hdg, by rw [hassign, hv]⟩
        · intro h1
          rw [List.length_eq_zero.mp h1] at hemp
          exact absurd rfl hemp
        · intro h1
          unfold lastObjectOf at hlo
          rw [if_pos h1] at hlo
          injection hlo with hlo'
          rw [hassign, ← hlo']

/-- C5 witness: a one-book listing sets last-object to the book's id. -/
theorem C5_listing_last_object_witness :
    pyLimit tListing = .ok 5 ∧
    get_objects kbOneBook (.str "book")
      (get_attribute_slots tListing
        (get_attributes_of_object kbOneBook (.str "book"))) 5 =
      .ok [[("title", Val.str "Dune"), ("author", .none_),
            ("publication_year", .str "1965"), ("genres", .none_),
            ("summary", .none_), ("name", .str "Dune from 1965"),
            ("id", .str "7")]] ∧
    ((([[("title", Val.str "Dune"), ("author", .none_),
        ("publication_year", .str "1965"), ("genres", .none_),
        ("summary", .none_), ("name", .str "Dune from 1965"),
        ("id", .str "7")]] : List NormObj).length = 1) →
      ∃ o v, ([[("title", Val.str "Dune"), ("author", .none_),
        ("publication_year", .str "1965"), ("genres", .none_),
        ("summary", .none_), ("name", .str "Dune from 1965"),
        ("id", .str "7")]] : List NormObj) = [o] ∧
        dictGet o (extD.keyAttr (.str "book")) = some v ∧
        assigns ([(SLOT_OBJECT_TYPE, SlotContent.val (.str "book")),
           (SLOT_MENTION, SlotContent.val .none_),
           (SLOT_ATTRIBUTE, SlotContent.val .none_),
           (SLOT_LAST_OBJECT, SlotContent.val (.str "7")),
           (SLOT_LAST_OBJECT_TYPE, SlotContent.val (.str "book")),
           (SLOT_LISTED_OBJECTS, SlotContent.vlist [.str "7"]),
           (SLOT_LIMIT, SlotContent.val .none_)])
          SLOT_LAST_OBJECT = some (SlotContent.val v)) :=
  ⟨rfl, rfl,
   (C5_listing_last_object kbOneBook extD (.str "book") tListing 5 _
     [.text "I found the following books :", .text "1: Dune from 1965"]
     _ rfl rfl rfl (by decide)).1⟩

/-- C6 counterexample: with every store call failing, the listing turn
over books does not convert the fault into a clarification — `run`
returns the fault itself. -/
theorem C6_fault_counterexample :
    run kbDown extD tListing = .error .storeFault := rfl

/-- C6 (amended): store-layer faults are not caught inside the turn
resolver: a listing-mode turn against a known type whose store search
fails propagates the fault out of `run` — no utterance and no state
delta is produced (the fault preempts every slot write). -/
theorem C6_fault_escapes (kb : KB) (ext : Externals) (t : Tracker) (f : Fault)
    (dt : DocumentType)
    (hmode : selectMode t = Mode.listing)
    (hdt : dictGetV kb.document_types (getSlot t SLOT_OBJECT_TYPE) = some dt)
    (hlim : getSlot t SLOT_LIMIT = Val.none_)
    (hsearch : ∀ i q, kb.es.search i q = .error f) :
    run kb ext t = .error f := by
  rw [run_dispatch, hmode]
  have hattr : get_attributes_of_object kb (getSlot t SLOT_OBJECT_TYPE) =
      dt.attributes.map (fun p => p.1) := by
    unfold get_attributes_of_object
    rw [hdt]
  have hq : ∀ a ∈ get_attribute_slots t
      (get_attributes_of_object kb (getSlot t SLOT_OBJECT_TYPE)),
      ∃ b, (match dictGet dt.attributes a.name with
        | some strat => Except.ok (strat.generate_query a.value a.role)
        | none => Except.error Fault.pyError) = .ok b := by
    intro a ha
    have hn := get_attribute_slots_name_mem t _ a ha
    rw [hattr] at hn
    rcases Option.isSome_iff_exists.mp
      (dictGet_isSome_of_mem_keys dt.attributes a.name hn) with ⟨strat, hstrat⟩
    exact ⟨strat.generate_query a.value a.role, by rw [hstrat]⟩
  rcases exMapM_ok _ _ hq with ⟨qs, hqs⟩
  have hgo : get_objects kb (getSlot t SLOT_OBJECT_TYPE)
      (get_attribute_slots t
        (get_attributes_of_object kb (getSlot t SLOT_OBJECT_TYPE))) 5 =
      .error f := by
    simp only [get_objects, hdt, hqs, hsearch]
  have hpl : pyLimit t = .ok 5 := by simp [pyLimit, hlim]
  simp only [query_objects, hpl, hgo]

/-- C6 witness: the failing store under the concrete listing tracker. -/
theorem C6_fault_escapes_witness :
    selectMode tListing = Mode.listing ∧
    run kbDown extD tListing = .error .storeFault :=
  ⟨rfl,
   C6_fault_escapes kbDown extD tListing .storeFault (BookDocumentType "book")
     rfl rfl rfl (fun _ _ => rfl)⟩

end CSBot
